import Mathlib

/-
  Shallow embedding of pi_rt_file (src/lib.rs): the SafeFile handle layer.

  Modelling conventions:
  - Bytes are Nat, u64/usize positions and lengths are Nat, io::Error is an
    opaque Nat error code (the code never inspects or constructs errors, it
    only forwards them, so an opaque code is faithful).
  - The coalescing buffer SpinLock<(Arc<[u8]>, usize)> is the structure Buff
    (payload, ver). SpinLock critical sections are constant-time in-memory
    operations and are modelled as atomic.
  - The device (pi_async_file AsyncFile, an external collaborator) is an
    oracle: devr pos len for read, devw pos data for write. WriteOptions is
    forwarded verbatim by the code and never inspected, so it is not modelled.
  - Each operation returns (result, buffer state, event trace). The trace
    records arbitration-lock acquisition and release and device calls, in
    program order. Rust drop semantics are modelled faithfully: the guards
    produced by the statements lock.lock().await; lock.read().await; and
    lock.write().await; in the source are unbound temporaries dropped at the
    end of their statement, so each acquire event is immediately followed by
    its release event, before any later device call.
  - Interference from concurrent tasks can occur while a task is suspended at
    an await point. The write path has two such windows touching the buffer:
    while waiting for the mutex (between staging and snapshotting) and during
    the device write (between the device call and the commit). They are
    modelled by explicit functions env1 env2 : Buff -> Buff; env = id is the
    interference-free execution.
-/

namespace PiRtFile

abbrev Byte := Nat

abbrev IOE := Nat

/-- The coalescing buffer: SpinLock<(Arc<[u8]>, usize)> in InnerSafeFile,
initialised to (empty, 0). -/
structure Buff where
  payload : List Byte
  ver : Nat
deriving Repr, DecidableEq

/-- Events recorded by an operation: arbitration lock activity and device
calls, in program order. -/
inductive Ev where
  | mAcq
  | mRel
  | rAcq
  | rRel
  | wAcq
  | wRel
  | devRead (pos len : Nat)
  | devWrite (pos : Nat) (data : List Byte)
  | devOpen (p : Nat)
deriving Repr, DecidableEq

/-- LockType from the source: Lock (async Mutex, chosen for TruncateWrite,
the SingleWriter strategy) or Rw (async RwLock, chosen for every other open
mode, the SharedExclusive strategy). -/
inductive LockType where
  | lock
  | rw
deriving Repr, DecidableEq

abbrev DevR := Nat → Nat → Except IOE (List Byte)

abbrev DevW := Nat → List Byte → Except IOE Nat

/-- The commit step of the SingleWriter write (source lines 193-198): after a
successful device write, re-acquire the spin lock and reset ver to 0 only if
it still equals the snapshotted version. -/
def commitVer (snap : Nat) (b : Buff) : Buff :=
  if b.ver = snap then ⟨b.payload, 0⟩ else b

/-- SafeFile::read, LockType::Lock branch (source lines 138-158). The payload
is cloned under the spin lock, the mutex is acquired and its guard dropped at
once, then: non-empty cache returns Vec::from([]) (the marked TODO placeholder),
empty cache issues the device read at (pos, len) and caches the result. -/
def readSW (devr : DevR) (pos len : Nat) (b : Buff) :
    Except IOE (List Byte) × Buff × List Ev :=
  let data := b.payload
  if data.length > 0 then
    (.ok [], b, [.mAcq, .mRel])
  else
    match devr pos len with
    | .ok r => (.ok r, ⟨r, b.ver⟩, [.mAcq, .mRel, .devRead pos len])
    | .error e => (.error e, b, [.mAcq, .mRel, .devRead pos len])

/-- SafeFile::read (source lines 131-164): zero length returns immediately;
otherwise dispatch on the lock strategy. In the Rw branch the read guard is
dropped at the end of its statement, then the device read runs. -/
def read (mode : LockType) (devr : DevR) (pos len : Nat) (b : Buff) :
    Except IOE (List Byte) × Buff × List Ev :=
  if len = 0 then
    (.ok [], b, [])
  else
    match mode with
    | .lock => readSW devr pos len b
    | .rw => (devr pos len, b, [.rAcq, .rRel, .devRead pos len])

/-- SafeFile::write, LockType::Lock branch (source lines 174-203): stage the
payload and bump the version under the spin lock; await the mutex (guard
dropped at once; env1 is concurrent interference during the wait); snapshot
(payload, ver); if ver = 0 return the payload length with no device call; else
issue the device write with the snapshotted payload at the caller pos; on
success commit via commitVer (env2 is interference during the device call); on
failure return the error with the buffer untouched by this call. -/
def writeSW (devw : DevW) (pos : Nat) (buf : List Byte) (env1 env2 : Buff → Buff)
    (b : Buff) : Except IOE Nat × Buff × List Ev :=
  let b1 : Buff := ⟨buf, b.ver + 1⟩
  let b2 := env1 b1
  if b2.ver = 0 then
    (.ok b2.payload.length, b2, [.mAcq, .mRel])
  else
    match devw pos b2.payload with
    | .ok r => (.ok r, commitVer b2.ver (env2 b2), [.mAcq, .mRel, .devWrite pos b2.payload])
    | .error e => (.error e, env2 b2, [.mAcq, .mRel, .devWrite pos b2.payload])

/-- SafeFile::write (source lines 167-210): empty data returns Ok(0) at once;
otherwise dispatch on the lock strategy. In the Rw branch the write guard is
dropped at the end of its statement, then the device write runs. -/
def write (mode : LockType) (devw : DevW) (pos : Nat) (buf : List Byte)
    (env1 env2 : Buff → Buff) (b : Buff) : Except IOE Nat × Buff × List Ev :=
  if buf.length = 0 then
    (.ok 0, b, [])
  else
    match mode with
    | .lock => writeSW devw pos buf env1 env2 b
    | .rw => (devw pos buf, b, [.wAcq, .wRel, .devWrite pos buf])

/-- The complete set of atomic mutations the source ever applies to the
coalescing buffer: staging a non-empty write payload (lines 176-179), the
version-fenced commit (lines 194-198), and caching a read result into an
empty cache (lines 151-152). -/
inductive BuffStep : Buff → Buff → Prop where
  | stage (buf : List Byte) (b : Buff) : buf ≠ [] → BuffStep b ⟨buf, b.ver + 1⟩
  | commit (snap : Nat) (b : Buff) : BuffStep b (commitVer snap b)
  | cacheFill (r : List Byte) (b : Buff) : b.payload = [] → BuffStep b ⟨r, b.ver⟩

/-- The registry OPEN_FILE_MAP: paths and handle identities are Nat; tab is
the path-keyed table of stored weak references (latest binding first, as a
HashMap entry overwrite); live is the set of handle identities whose weak
reference still upgrades (a strong holder exists). -/
structure Reg where
  tab : List (Nat × Nat)
  live : List Nat
deriving Repr, DecidableEq

def lookupTab (t : List (Nat × Nat)) (p : Nat) : Option Nat :=
  match t.find? (fun e => e.1 == p) with
  | some e => some e.2
  | none => none

/-- Registering a freshly constructed handle: store its weak reference under
the path; the fresh handle is live because the caller holds it strongly. -/
def regInsert (st : Reg) (p h : Nat) : Reg :=
  ⟨(p, h) :: st.tab, h :: st.live⟩

/-- The first lookup of SafeFile::open (source lines 98-105) does not find a
live handle: either no entry, or the stored weak reference is dead. -/
def firstMissB (st : Reg) (p : Nat) : Bool :=
  match lookupTab st.tab p with
  | some h => !(st.live.contains h)
  | none => true

/-- The slow path of SafeFile::open (source lines 107-128): device open; on
failure return the error with no registry change; on success re-lock the
table (env is interference while the table mutex was released), and either
return a still-live winner (discarding the fresh handle) or register the
fresh handle (also when a dead entry occupies the slot). -/
def openSlow (p : Nat) (env : Reg → Reg) (dev : Except IOE Unit) (fresh : Nat)
    (st : Reg) : Except IOE Nat × Reg × List Ev :=
  match dev with
  | .error e => (.error e, st, [.devOpen p])
  | .ok _ =>
    let st2 := env st
    match lookupTab st2.tab p with
    | some h2 =>
      if st2.live.contains h2 then (.ok h2, st2, [.devOpen p])
      else (.ok fresh, regInsert st2 p fresh, [.devOpen p])
    | none => (.ok fresh, regInsert st2 p fresh, [.devOpen p])

/-- SafeFile::open (source lines 92-129): look up the path under the table
mutex; return a still-live cached handle directly, otherwise take the slow
path. -/
def openSF (p : Nat) (env : Reg → Reg) (dev : Except IOE Unit) (fresh : Nat)
    (st : Reg) : Except IOE Nat × Reg × List Ev :=
  match lookupTab st.tab p with
  | some h =>
    if st.live.contains h then (.ok h, st, [])
    else openSlow p env dev fresh st
  | none => openSlow p env dev fresh st

/-- An operation against one handle, for stating frame properties over
sequences of calls. -/
inductive Op where
  | rd (pos len : Nat)
  | wr (pos : Nat) (buf : List Byte)

/-- Run a sequence of interference-free reads and writes against a handle,
threading the buffer state. -/
def runOps (mode : LockType) (devr : DevR) (devw : DevW) (ops : List Op)
    (b : Buff) : Buff :=
  match ops with
  | [] => b
  | .rd p l :: rest => runOps mode devr devw rest (read mode devr p l b).2.1
  | .wr p d :: rest => runOps mode devr devw rest (write mode devw p d id id b).2.1

theorem rw_read_buff_eq (devr : DevR) (p l : Nat) (b : Buff) :
    (read .rw devr p l b).2.1 = b := by
  by_cases h : l = 0 <;> simp [read, h]

theorem rw_write_buff_eq (devw : DevW) (p : Nat) (d : List Byte) (b : Buff) :
    (write .rw devw p d id id b).2.1 = b := by
  by_cases h : d.length = 0 <;> simp [write, h]

/-- C1: in SingleWriter mode with the non-empty cached payload [7, 8, 9], the
call read(0, 2) evaluates to Ok([]) with no device read, instead of the
claimed clipped range [7, 8] of the cached content: the source returns the
Vec::from([]) placeholder at its marked TODO. -/
theorem c1_cached_read_returns_empty :
    read .lock (fun _ _ => .ok [0, 0]) 0 2 ⟨[7, 8, 9], 0⟩ =
      (.ok [], ⟨[7, 8, 9], 0⟩, [.mAcq, .mRel]) := rfl

/-- C2: the version fence of the SingleWriter write. After a successful
device write the buffer is committed via commitVer: the version is reset to 0
exactly when it still equals the snapshotted version, and otherwise payload
and version are left untouched; and every atomic buffer mutation the source
performs either leaves the version non-decreasing or resets it to 0. -/
theorem c2_version_fence :
    (∀ (devw : DevW) (pos : Nat) (buf : List Byte) (env1 env2 : Buff → Buff)
        (b : Buff) (r : Nat), buf ≠ [] → (env1 ⟨buf, b.ver + 1⟩).ver ≠ 0 →
        devw pos (env1 ⟨buf, b.ver + 1⟩).payload = .ok r →
        write .lock devw pos buf env1 env2 b =
          (.ok r, commitVer (env1 ⟨buf, b.ver + 1⟩).ver (env2 (env1 ⟨buf, b.ver + 1⟩)),
            [.mAcq, .mRel, .devWrite pos (env1 ⟨buf, b.ver + 1⟩).payload])) ∧
    (∀ (snap : Nat) (b : Buff), b.ver = snap → commitVer snap b = ⟨b.payload, 0⟩) ∧
    (∀ (snap : Nat) (b : Buff), b.ver ≠ snap → commitVer snap b = b) ∧
    (∀ b b' : Buff, BuffStep b b' → b.ver ≤ b'.ver ∨ b'.ver = 0) := by
  refine ⟨?_, ?_, ?_, ?_⟩
  · intro devw pos buf env1 env2 b r hbuf hver hdev
    simp [write, writeSW, List.length_eq_zero, hbuf, hver, hdev]
  · intro snap b h
    simp [commitVer, h]
  · intro snap b h
    simp [commitVer, h]
  · intro b b' hs
    cases hs with
    | stage buf b h => exact Or.inl (Nat.le_succ _)
    | commit snap b =>
      by_cases h : b.ver = snap
      · exact Or.inr (by simp [commitVer, h])
      · exact Or.inl (by simp [commitVer, h])
    | cacheFill r b h => exact Or.inl (Nat.le_refl _)

/-- C2 witness: concrete instances of each part of the version fence. -/
theorem c2_version_fence_witness :
    write .lock (fun _ _ => .ok 2) 0 [1] id (fun _ => ⟨[5], 9⟩) ⟨[], 0⟩ =
      (.ok 2, ⟨[5], 9⟩, [.mAcq, .mRel, .devWrite 0 [1]]) ∧
    commitVer 3 ⟨[1], 3⟩ = ⟨[1], 0⟩ ∧
    commitVer 3 ⟨[2], 5⟩ = ⟨[2], 5⟩ ∧
    ((5 : Nat) ≤ 6 ∨ (6 : Nat) = 0) :=
  ⟨c2_version_fence.1 (fun _ _ => .ok 2) 0 [1] id (fun _ => ⟨[5], 9⟩) ⟨[], 0⟩ 2
      (by decide) (by decide) rfl,
    c2_version_fence.2.1 3 ⟨[1], 3⟩ rfl,
    c2_version_fence.2.2.1 3 ⟨[2], 5⟩ (by decide),
    c2_version_fence.2.2.2 ⟨[7], 5⟩ ⟨[1], 6⟩ (BuffStep.stage [1] ⟨[7], 5⟩ (by decide))⟩

/-- C3: in the SingleWriter write with non-empty data, when the version
snapshotted after the exclusive-lock wait is 0 (a concurrent writer already
flushed the pending payload), the call returns Ok with the snapshotted
payload length, the buffer is unchanged by this call, and the trace holds no
device write. -/
theorem c3_flushed_skip (devw : DevW) (pos : Nat) (buf : List Byte)
    (env1 env2 : Buff → Buff) (b : Buff)
    (hbuf : buf ≠ []) (hver : (env1 ⟨buf, b.ver + 1⟩).ver = 0) :
    write .lock devw pos buf env1 env2 b =
      (.ok (env1 ⟨buf, b.ver + 1⟩).payload.length, env1 ⟨buf, b.ver + 1⟩,
        [.mAcq, .mRel]) := by
  simp [write, writeSW, List.length_eq_zero, hbuf, hver]

/-- C3 witness: a concurrent flush zeroed the version during the lock wait;
the call returns the flushed payload length and no device event occurs even
though the device oracle only fails. -/
theorem c3_flushed_skip_witness :
    write .lock (fun _ _ => .error 1) 0 [1] (fun _ => ⟨[9, 9], 0⟩) id ⟨[], 5⟩ =
      (.ok 2, ⟨[9, 9], 0⟩, [.mAcq, .mRel]) :=
  c3_flushed_skip (fun _ _ => .error 1) 0 [1] (fun _ => ⟨[9, 9], 0⟩) id ⟨[], 5⟩
    (by decide) rfl

/-- C4: a failing SingleWriter device write propagates the error verbatim,
the trace holds exactly one device write (no retry), and the call leaves the
buffer exactly as it stood when the device write was issued: with no
interference the version stays non-zero and the payload is the staged one. -/
theorem c4_error_propagation (devw : DevW) (pos : Nat) (buf : List Byte)
    (env1 env2 : Buff → Buff) (b : Buff) (e : IOE)
    (hbuf : buf ≠ []) (hver : (env1 ⟨buf, b.ver + 1⟩).ver ≠ 0)
    (hdev : devw pos (env1 ⟨buf, b.ver + 1⟩).payload = .error e) :
    write .lock devw pos buf env1 env2 b =
      (.error e, env2 (env1 ⟨buf, b.ver + 1⟩),
        [.mAcq, .mRel, .devWrite pos (env1 ⟨buf, b.ver + 1⟩).payload]) ∧
    (write .lock devw pos buf env1 id b).2.1 = env1 ⟨buf, b.ver + 1⟩ ∧
    (write .lock devw pos buf env1 id b).2.1.ver ≠ 0 := by
  refine ⟨?_, ?_, ?_⟩ <;>
    simp [write, writeSW, List.length_eq_zero, hbuf, hver, hdev]

/-- C4 witness: a concrete failing device write. -/
theorem c4_error_propagation_witness :
    write .lock (fun _ _ => .error 7) 0 [1] id id ⟨[], 0⟩ =
      (.error 7, ⟨[1], 1⟩, [.mAcq, .mRel, .devWrite 0 [1]]) ∧
    (write .lock (fun _ _ => .error 7) 0 [1] id id ⟨[], 0⟩).2.1 = ⟨[1], 1⟩ ∧
    (write .lock (fun _ _ => .error 7) 0 [1] id id ⟨[], 0⟩).2.1.ver ≠ 0 :=
  c4_error_propagation (fun _ _ => .error 7) 0 [1] id id ⟨[], 0⟩ 7
    (by decide) (by decide) rfl

/-- C5: the SingleWriter write forwards the caller pos verbatim to the device
write: write(5, [1, 2], ...) issues the device write at offset 5, not at
offset 0 as the claim (and the source comment saying pos is ignored) states. -/
theorem c5_pos_forwarded :
    write .lock (fun _ d => .ok d.length) 5 [1, 2] id id ⟨[], 0⟩ =
      (.ok 2, ⟨[1, 2], 0⟩, [.mAcq, .mRel, .devWrite 5 [1, 2]]) := rfl

/-- C6: the registry contract of SafeFile::open: a live cached handle is
returned with no device open and no registry change; a lost insertion race
returns the still-live winner, discards the fresh handle and leaves the
table unchanged; a failing device open returns the error and registers
nothing. -/
theorem c6_registry (p : Nat) (env : Reg → Reg) (dev : Except IOE Unit)
    (fresh : Nat) (st : Reg) (h w : Nat) (e : IOE) :
    (lookupTab st.tab p = some h → st.live.contains h = true →
      openSF p env dev fresh st = (.ok h, st, [])) ∧
    (firstMissB st p = true → dev = .ok () →
      lookupTab (env st).tab p = some w → (env st).live.contains w = true →
      openSF p env dev fresh st = (.ok w, env st, [.devOpen p])) ∧
    (firstMissB st p = true → dev = .error e →
      openSF p env dev fresh st = (.error e, st, [.devOpen p])) := by
  refine ⟨?_, ?_, ?_⟩
  · intro hl hlive
    have hmem : h ∈ st.live := by simpa using hlive
    simp [openSF, hl, hmem]
  · intro hmiss hdev hl2 hlive2
    subst hdev
    have hmem2 : w ∈ (env st).live := by simpa using hlive2
    unfold openSF firstMissB at *
    cases hcase : lookupTab st.tab p with
    | some h0 =>
      simp [hcase] at hmiss ⊢
      simp [hmiss, openSlow, hl2, hmem2]
    | none =>
      simp [hcase, openSlow, hl2, hmem2]
  · intro hmiss hdev
    subst hdev
    unfold openSF firstMissB at *
    cases hcase : lookupTab st.tab p with
    | some h0 =>
      simp [hcase] at hmiss ⊢
      simp [hmiss, openSlow]
    | none =>
      simp [hcase, openSlow]

/-- C6 witness: concrete instances of the three registry behaviours. -/
theorem c6_registry_witness :
    openSF 1 id (.ok ()) 30 ⟨[(1, 10)], [10]⟩ = (.ok 10, ⟨[(1, 10)], [10]⟩, []) ∧
    openSF 1 (fun _ => ⟨[(1, 20)], [20]⟩) (.ok ()) 30 ⟨[], []⟩ =
      (.ok 20, ⟨[(1, 20)], [20]⟩, [.devOpen 1]) ∧
    openSF 1 id (.error 7) 30 ⟨[], []⟩ = (.error 7, ⟨[], []⟩, [.devOpen 1]) :=
  ⟨(c6_registry 1 id (.ok ()) 30 ⟨[(1, 10)], [10]⟩ 10 0 0).1 rfl rfl,
    (c6_registry 1 (fun _ => ⟨[(1, 20)], [20]⟩) (.ok ()) 30 ⟨[], []⟩ 0 20 0).2.1
      rfl rfl rfl rfl,
    (c6_registry 1 id (.error 7) 30 ⟨[], []⟩ 0 0 7).2.2 rfl rfl⟩

/-- C7: with an empty cache, read(5, 10) in SingleWriter mode issues the
device read at (5, 10), the requested sub-range, not over the full file, and
caches that possibly partial result wholesale as the new payload (version
left at 0). -/
theorem c7_partial_read_cached :
    read .lock (fun _ l => .ok (List.replicate l 3)) 5 10 ⟨[], 0⟩ =
      (.ok (List.replicate 10 3), ⟨List.replicate 10 3, 0⟩,
        [.mAcq, .mRel, .devRead 5 10]) := rfl

/-- C8: in every mode the arbitration lock is released before the device
call runs: each trace below shows the release event strictly preceding the
device event, because the source drops each lock guard at the end of its
statement instead of holding it across the device call. -/
theorem c8_lock_not_held :
    (write .lock (fun _ d => .ok d.length) 0 [1] id id ⟨[], 0⟩).2.2 =
      [.mAcq, .mRel, .devWrite 0 [1]] ∧
    (read .rw (fun _ _ => .ok [4]) 0 1 ⟨[], 0⟩).2.2 =
      [.rAcq, .rRel, .devRead 0 1] ∧
    (write .rw (fun _ d => .ok d.length) 0 [1] id id ⟨[], 0⟩).2.2 =
      [.wAcq, .wRel, .devWrite 0 [1]] :=
  ⟨rfl, rfl, rfl⟩

/-- C9: zero-length read returns an empty result with an empty trace (no
lock, no device call); empty-data write returns Ok(0) with an empty trace
and the buffer unchanged, in both modes. -/
theorem c9_zero_length_noop (mode : LockType) (devr : DevR) (devw : DevW)
    (pos : Nat) (env1 env2 : Buff → Buff) (b : Buff) :
    read mode devr pos 0 b = (.ok [], b, []) ∧
    write mode devw pos [] env1 env2 b = (.ok 0, b, []) := by
  constructor <;> simp [read, write]

/-- C10: SharedExclusive reads and writes are a frame for the coalescing
buffer: any sequence of them leaves the buffer exactly as it was, and the
result and trace of each call are independent of the buffer contents. -/
theorem c10_shared_exclusive_frame (devr : DevR) (devw : DevW) (ops : List Op)
    (b b' : Buff) (pos len : Nat) (buf : List Byte)
    (env1 env2 env1' env2' : Buff → Buff) :
    runOps .rw devr devw ops b = b ∧
    (read .rw devr pos len b).1 = (read .rw devr pos len b').1 ∧
    (read .rw devr pos len b).2.2 = (read .rw devr pos len b').2.2 ∧
    (write .rw devw pos buf env1 env2 b).1 = (write .rw devw pos buf env1' env2' b').1 ∧
    (write .rw devw pos buf env1 env2 b).2.2 =
      (write .rw devw pos buf env1' env2' b').2.2 := by
  refine ⟨?_, ?_, ?_, ?_, ?_⟩
  · induction ops generalizing b with
    | nil => rfl
    | cons op rest ih =>
      cases op with
      | rd p l => rw [runOps, rw_read_buff_eq, ih]
      | wr p d => rw [runOps, rw_write_buff_eq, ih]
  · by_cases h : len = 0 <;> simp [read, h]
  · by_cases h : len = 0 <;> simp [read, h]
  · by_cases h : buf.length = 0 <;> simp [write, h]
  · by_cases h : buf.length = 0 <;> simp [write, h]

end PiRtFile
